import Mathlib

/-!
Shallow embedding of the user-profile component of `FinalProject-Front`
(`src/src/components/UserProfile/index.tsx`).

The embedding models:
* the zod form schema `profileFormSchema` (field validators);
* the item-ownership filter inside `renderUserItems`;
* the submit handler `onSubmit` (payload construction, network calls,
  local-user merge) with the outcomes of the two network calls supplied
  as explicit `Except` oracles;
* the cancel handler `handleCancelEdit`;
* the image-staging `useEffect` (object-URL create/revoke life cycle)
  as an explicit React commit-step function;
* the `formatLocation` helper and the location expression actually
  rendered for an item.

JavaScript semantics that matter here are made explicit: `a || b` falls
back when `a` is `undefined` or the empty string (falsiness), `a ?? b`
only when `a` is absent; a string is truthy iff non-empty.  JS string
`length` counts UTF-16 units and Lean counts code points; every string
in the development is ASCII, where the two agree.
-/

/-- A selected file: only the metadata the component ever looks at. -/
structure FileMeta where
  fileName : String
  mimeType : String
deriving DecidableEq

/-- A `FileList` as delivered by the file input. -/
abbrev JSFileList := List FileMeta

/-- The `UserData` interface of the component.  Optional fields are
`Option`; `_id` being `none` models a missing `_id` property. -/
structure UserData where
  _id : Option String
  email : String
  userName : String
  password : Option String
  imgURL : Option String
  accessToken : Option String
  refreshToken : Option String
deriving DecidableEq

/-- The validated form payload `ProfileFormData`. -/
structure ProfileFormDataModel where
  email : String
  userName : String
  password : String
  profileImage : Option JSFileList
deriving DecidableEq

/-- JS `a || b` on possibly-absent strings: falls back when `a` is
absent or empty (falsy). -/
def jsOrStr (a b : Option String) : Option String :=
  match a with
  | some s => if s = "" then b else some s
  | none => b

/-- JS `a ?? b` on possibly-absent strings: falls back only when `a`
is absent. -/
def jsNullish (a b : Option String) : Option String :=
  match a with
  | some s => some s
  | none => b

/-- JS truthiness of a possibly-absent string. -/
def truthyStr : Option String → Bool
  | some s => s ≠ ""
  | none => false

/-! ## ProfileFormValidator: the zod schema `profileFormSchema` -/

/-- `password: z.string().min(8, ...)` — the schema accepts a password
iff its length is at least 8; there is no empty-string escape hatch. -/
def passwordValid (p : String) : Bool :=
  decide (8 ≤ p.length)

/-- Modelled from the spec's words, for comparison with `passwordValid`:
"if non-empty, minimum length 8 characters; empty is always valid". -/
def passwordValidClaim (p : String) : Bool :=
  if p = "" then true else decide (8 ≤ p.length)

/-- `userName: z.string().min(3, ...)`. -/
def userNameValid (u : String) : Bool :=
  decide (3 ≤ u.length)

/-- `profileImage: z.optional(z.instanceof(FileList))` — the schema only
checks that the value, when present, is a `FileList` (`instanceof`); a
well-typed input therefore always passes.  No MIME-type constraint is
enforced anywhere in the schema. -/
def profileImageValid (x : Option JSFileList) : Bool :=
  match x with
  | none => true
  | some _ => true

/-- Modelled from the spec's words, for comparison with
`profileImageValid`: "if present, must be an image of MIME type
image/jpeg or image/png". -/
def profileImageValidClaim (x : Option JSFileList) : Bool :=
  match x with
  | none => true
  | some fs => fs.all (fun f => f.mimeType == "image/jpeg" || f.mimeType == "image/png")

/-- The `accept` attribute on the hidden file input.  It is a picker
hint for the browser dialog, not a validation rule. -/
def profileImageInputAccept : String := "image/jpeg,image/png"

/-! ## ItemClassifier: the filter inside `renderUserItems` -/

/-- The location value of an item (`string` or `{lat, lng}` in the
source; `missing` models `null`/`undefined`). -/
inductive Location where
  | text (s : String)
  | coords (lat lng : Rat)
  | missing
deriving DecidableEq

/-- The fields of `Item` the profile component reads. -/
structure Item where
  _id : String
  owner : Option String
  userId : Option String
  itemType : Option String
  name : String
  description : String
  category : String
  location : Location
  date : Option String
  imgURL : Option String
deriving DecidableEq

/-- JS `toLowerCase`, modelled per character (the strings in play are
ASCII, where JS and `Char.toLower` agree). -/
def jsToLower (s : String) : String :=
  String.mk (s.data.map Char.toLower)

/-- The whitespace JS `trim` strips (ASCII subset). -/
def isJsWhitespace (c : Char) : Bool :=
  c = ' ' ∨ c = '\t' ∨ c = '\n' ∨ c = '\r' ∨ c = '\x0b' ∨ c = '\x0c'

/-- JS `trim`: drop leading and trailing whitespace. -/
def jsTrim (s : String) : String :=
  String.mk (((s.data.dropWhile isJsWhitespace).reverse.dropWhile isJsWhitespace).reverse)

/-- `(item.itemType || '').toLowerCase().trim()`. -/
def jsLowerTrim (s : Option String) : String :=
  jsTrim (jsToLower (s.getD ""))

/-- The predicate of the `items.filter` callback in `renderUserItems`:
resolve the owner with `item.owner || item.userId`, bail out when the
resolved owner or the current user id is falsy, compare the two as
strings, then compare the lowercased-and-trimmed item type with the
requested type. -/
def itemMatches (currentUserId : Option String) (typeParam : String) (item : Item) : Bool :=
  let itemOwner := jsOrStr item.owner item.userId
  if ¬ truthyStr itemOwner ∨ ¬ truthyStr currentUserId then false
  else if ¬ (itemOwner = currentUserId) then false
  else jsLowerTrim item.itemType = typeParam

/-- The classification of `renderUserItems`: filter the item list. -/
def classify (items : List Item) (currentUserId : Option String) (typeParam : String) :
    List Item :=
  items.filter (itemMatches currentUserId typeParam)

/-- Modelled from the spec's words, for comparison with `classify`:
keep an item iff `normalize(I.owner ?? I.userId) == normalize(U)` and
the lowercased, trimmed item type equals the requested type (owner falls
back to `userId` only when absent). -/
def claimMatches (u : String) (typeParam : String) (item : Item) : Bool :=
  decide (jsNullish item.owner item.userId = some u) &&
    decide (jsLowerTrim item.itemType = typeParam)

/-- The spec-side classification, built from `claimMatches`. -/
def claimClassify (items : List Item) (u : String) (typeParam : String) : List Item :=
  items.filter (claimMatches u typeParam)

/-- The amended ownership predicate: the owner resolves with the falsy
fallback `owner || userId`, and both the resolved owner and the current
user id must be non-empty before the string comparison. -/
def amendedMatches (currentUserId : Option String) (typeParam : String) (item : Item) : Bool :=
  truthyStr (jsOrStr item.owner item.userId) && truthyStr currentUserId &&
    decide (jsOrStr item.owner item.userId = currentUserId) &&
    decide (jsLowerTrim item.itemType = typeParam)

/-! ## ProfileController: component state and the submit handler -/

/-- The payload `updatedUserData : Partial<UserData>` built by
`onSubmit`.  `email` and `userName` are always present; `password` and
`imgURL` are present only when assigned. -/
structure UpdatePayload where
  email : String
  userName : String
  password : Option String
  imgURL : Option String
deriving DecidableEq

/-- The component state touched by the handlers. -/
structure ComponentState where
  localUser : Option UserData
  selectedImage : Option FileMeta
  tempImageURL : Option String
  isEditing : Bool
  isUploading : Bool
deriving DecidableEq

/-- A network call issued by `onSubmit`. -/
inductive NetCall where
  | uploadImage (file : FileMeta)
  | updateUser (id : String) (payload : UpdatePayload)
deriving DecidableEq

/-- The first two assignments of `onSubmit`: start from
`{email, userName}` and add `password` exactly when
`data.password && data.password.length >= 8`. -/
def basePayload (data : ProfileFormDataModel) : UpdatePayload :=
  let p : UpdatePayload :=
    { email := data.email, userName := data.userName, password := none, imgURL := none }
  if data.password ≠ "" ∧ 8 ≤ data.password.length then
    { p with password := some data.password }
  else p

/-- The `setLocalUser` argument on the success path:
`{...localUser, ...updatedUserData, imgURL: updatedUserData.imgURL || localUser.imgURL}`.
Spreading the payload overrides exactly the keys present in it; the
final `imgURL` entry falls back to the prior value when the payload's
`imgURL` is absent or empty (JS `||`). -/
def mergeLocal (u : UserData) (payload : UpdatePayload) : UserData :=
  { u with
    email := payload.email,
    userName := payload.userName,
    password := match payload.password with
      | some p => some p
      | none => u.password,
    imgURL := match payload.imgURL with
      | some url => if url = "" then u.imgURL else some url
      | none => u.imgURL }

/-- Modelled from the spec's words, for comparison with the merge the
code performs: "merge the (server's) response into `UserAccount`;
fields not present in the partial update are preserved from the prior
value" — fields present in the payload take the response's values. -/
def mergeSpecResponse (u : UserData) (payload : UpdatePayload) (resp : UserData) : UserData :=
  { u with
    email := resp.email,
    userName := resp.userName,
    password := if payload.password.isSome then resp.password else u.password,
    imgURL := if payload.imgURL.isSome then resp.imgURL else u.imgURL }

/-- The submit handler `onSubmit`.  The outcomes of the two awaited
service calls are passed as oracles: `uploadResult` for
`userService.uploadImage` (consulted only when an image is staged) and
`updateResult` for `userService.updateUser`.  The returned list records
the service calls issued, in order.  The guard
`if (!localUser || !localUser._id) return;` runs before
`setIsUploading(true)`; a thrown call lands in `catch` (which only
logs) and `finally` (which clears `isUploading`).  The server response
on the success path is logged and otherwise unused; `updateAuthState`
is an external effect with no bearing on the modelled state. -/
def onSubmit (s : ComponentState) (data : ProfileFormDataModel)
    (uploadResult : Except Unit String) (updateResult : Except Unit UserData) :
    ComponentState × List NetCall :=
  match s.localUser with
  | none => (s, [])
  | some u =>
    match u._id with
    | none => (s, [])
    | some uid =>
      if uid = "" then (s, [])
      else
        let p1 := basePayload data
        match s.selectedImage with
        | some file =>
          (match uploadResult with
           | Except.error _ => ({ s with isUploading := false }, [NetCall.uploadImage file])
           | Except.ok url =>
             let p2 := { p1 with imgURL := some url }
             (match updateResult with
              | Except.error _ =>
                ({ s with isUploading := false },
                 [NetCall.uploadImage file, NetCall.updateUser uid p2])
              | Except.ok _resp =>
                ({ s with
                    localUser := some (mergeLocal u p2),
                    selectedImage := none,
                    tempImageURL := none,
                    isEditing := false,
                    isUploading := false },
                 [NetCall.uploadImage file, NetCall.updateUser uid p2])))
        | none =>
          (match updateResult with
           | Except.error _ =>
             ({ s with isUploading := false }, [NetCall.updateUser uid p1])
           | Except.ok _resp =>
             ({ s with
                 localUser := some (mergeLocal u p1),
                 selectedImage := none,
                 tempImageURL := none,
                 isEditing := false,
                 isUploading := false },
              [NetCall.updateUser uid p1]))

/-! ## Cancel and the edit session -/

/-- The working copy held by the form (the three registered fields). -/
structure FormState where
  email : String
  userName : String
  password : String
deriving DecidableEq

/-- JS `a || b` on plain strings. -/
def jsOrString (a b : String) : String :=
  if a = "" then b else a

/-- An edit-mode user action: typing into one of the three fields, or
picking an image (which stages the file and its preview handle). -/
inductive EditAction where
  | editEmail (v : String)
  | editUserName (v : String)
  | editPassword (v : String)
  | selectImage (file : FileMeta) (url : String)
deriving DecidableEq

/-- Apply one edit action to the component and form state. -/
def applyEdit (sf : ComponentState × FormState) (a : EditAction) :
    ComponentState × FormState :=
  match a with
  | EditAction.editEmail v => (sf.1, { sf.2 with email := v })
  | EditAction.editUserName v => (sf.1, { sf.2 with userName := v })
  | EditAction.editPassword v => (sf.1, { sf.2 with password := v })
  | EditAction.selectImage file url =>
    ({ sf.1 with selectedImage := some file, tempImageURL := some url }, sf.2)

/-- `setIsEditing(true)` — entering edit mode. -/
def enterEdit (s : ComponentState) : ComponentState :=
  { s with isEditing := true }

/-- `handleCancelEdit`: reset the form fields from `localUser`
(`setValue("userName", localUser.userName || "")`, password cleared),
drop the staged image and its preview URL reference, leave edit mode.
`localUser` itself is never written. -/
def handleCancelEdit (s : ComponentState) (f : FormState) :
    ComponentState × FormState :=
  let f2 := match s.localUser with
    | some u => { email := u.email, userName := jsOrString u.userName "", password := "" }
    | none => f
  ({ s with selectedImage := none, tempImageURL := none, isEditing := false }, f2)

/-- An edit session: enter edit mode, apply a sequence of edit actions,
then cancel. -/
def cancelAfterEdits (s : ComponentState) (f : FormState) (acts : List EditAction) :
    ComponentState × FormState :=
  let p := acts.foldl applyEdit (enterEdit s, f)
  handleCancelEdit p.1 p.2

/-! ## ImageStagingManager: the `watchProfileImage` effect

The effect

```
useEffect(() => {
  if (watchProfileImage && watchProfileImage.length > 0) {
    const file = watchProfileImage[0];
    setSelectedImage(file);
    setTempImageUrl(URL.createObjectURL(file));
    return () => { if (tempImageURL) URL.revokeObjectURL(tempImageURL); };
  }
}, [watchProfileImage, tempImageURL]);
```

is modelled with React's commit semantics: on every commit whose
dependency tuple differs from the one recorded at the last run, the
previously registered cleanup runs first (it closes over the
`tempImageURL` value of the render in which the effect ran), then the
body runs.  Because the body calls `setTempImageUrl` with a fresh
object URL and `tempImageURL` is itself a dependency, each commit with
a selected file re-runs the effect.  Preview handles are numbered by a
counter; `createdCount`/`revokedCount` count `URL.createObjectURL` and
`URL.revokeObjectURL` calls. -/
structure EffectState where
  fileSelected : Bool
  tempImageURL : Option Nat
  nextHandle : Nat
  createdCount : Nat
  revokedCount : Nat
  pendingCleanup : Option (Option Nat)
  prevDeps : Option (Bool × Option Nat)
deriving DecidableEq

/-- Run the registered cleanup, if any: `if (tempImageURL)
URL.revokeObjectURL(tempImageURL)` with the closed-over value. -/
def runPendingCleanup (s : EffectState) : EffectState :=
  match s.pendingCleanup with
  | some (some _h) => { s with revokedCount := s.revokedCount + 1, pendingCleanup := none }
  | some none => { s with pendingCleanup := none }
  | none => s

/-- The effect body: when a file is selected, create a fresh object URL,
store it, and register a cleanup closing over the render's (pre-update)
`tempImageURL`; otherwise register no cleanup. -/
def imageEffectBody (s : EffectState) : EffectState :=
  if s.fileSelected then
    { s with
      createdCount := s.createdCount + 1,
      nextHandle := s.nextHandle + 1,
      pendingCleanup := some s.tempImageURL,
      tempImageURL := some s.nextHandle }
  else { s with pendingCleanup := none }

/-- One React commit of the effect: re-run (cleanup, then body) iff the
dependency tuple `[watchProfileImage, tempImageURL]` changed since the
last run (`prevDeps = none` means the effect has never run). -/
def commitEffect (s : EffectState) : EffectState :=
  let deps := (s.fileSelected, s.tempImageURL)
  if s.prevDeps = some deps then s
  else
    let s1 := runPendingCleanup s
    let s2 := imageEffectBody s1
    { s2 with prevDeps := some deps }

/-- The component's initial effect state at mount. -/
def mountState : EffectState :=
  { fileSelected := false, tempImageURL := none, nextHandle := 0,
    createdCount := 0, revokedCount := 0, pendingCleanup := none, prevDeps := none }

/-- The user picks a file in the file input (the watched form field now
holds a non-empty `FileList`; `handleCancelEdit` never clears it). -/
def selectImageFile (s : EffectState) : EffectState :=
  { s with fileSelected := true }

/-- The `setTempImageUrl(null)` performed by `handleCancelEdit` and by
the submit success path: the reference is dropped without any
`URL.revokeObjectURL` call. -/
def clearTempImageURL (s : EffectState) : EffectState :=
  { s with tempImageURL := none }

/-- Unmount: React runs the last registered cleanup. -/
def unmountComponent (s : EffectState) : EffectState :=
  runPendingCleanup s

/-- A concrete session: mount, pick one file, let three commits run,
then unmount. -/
def effectTrace : EffectState :=
  unmountComponent
    (commitEffect (commitEffect (commitEffect (selectImageFile (commitEffect mountState)))))

/-! ## Location formatting and the item rendering -/

/-- Decimal formatting of a natural number to four digits with leading
zeros (the fractional part of `toFixed(4)`). -/
def pad4 (n : Nat) : String :=
  let s := toString n
  String.mk (List.replicate (4 - s.length) '0') ++ s

/-- `x.toFixed(4)` on a rational value: round half away from zero at
the fourth decimal, computed on the numerator and denominator
(`⌊|q| * 10000 + 1/2⌋ = (2 * |num| * 10000 + den) / (2 * den)` in
natural-number division).  (JS `toFixed` works on binary doubles,
whose ties can differ in the last digit; the values used here are
exact.) -/
def toFixed4 (q : Rat) : String :=
  let n : Nat := (2 * q.num.natAbs * 10000 + q.den) / (2 * q.den)
  (if q.num < 0 then "-" else "") ++ toString (n / 10000) ++ "." ++ pad4 (n % 10000)

/-- The helper `formatLocation`: falsy values give "Unknown location",
strings pass through, `{lat, lng}` objects are formatted with
`toFixed(4)`. -/
def formatLocation (location : Location) : String :=
  match location with
  | Location.missing => "Unknown location"
  | Location.text s => if s = "" then "Unknown location" else s
  | Location.coords lat lng =>
    "Lat: " ++ toFixed4 lat ++ ", Lng: " ++ toFixed4 lng

/-- What the JSX of `renderUserItems` actually displays for the
location: the raw `{item.location}` child, not
`formatLocation(item.location)`.  A string child renders as-is, a
missing value renders as nothing, and an object child is not a valid
React child (rendering throws), modelled as `none`. -/
def renderedLocation (location : Location) : Option String :=
  match location with
  | Location.text s => some s
  | Location.missing => some ""
  | Location.coords _ _ => none

/-! ## Concrete instances used in the theorems and witnesses -/

/-- An item whose `owner` is present but empty, with the legacy
`userId` field set. -/
def itemEmptyOwner : Item :=
  { _id := "i1", owner := some "", userId := some "u1", itemType := some "lost",
    name := "wallet", description := "black wallet", category := "accessories",
    location := Location.text "park", date := none, imgURL := none }

/-- A file whose MIME type the spec forbids. -/
def gifFile : FileMeta := { fileName := "picture.gif", mimeType := "image/gif" }

/-- A file whose MIME type the spec allows. -/
def jpegFile : FileMeta := { fileName := "picture.jpeg", mimeType := "image/jpeg" }

/-- A populated prior account. -/
def cexUser : UserData :=
  { _id := some "id1", email := "old@example.com", userName := "oldname",
    password := some "oldpass1", imgURL := some "avatar-a.png",
    accessToken := none, refreshToken := none }

/-- Editing state over `cexUser`, with no staged image. -/
def cexState : ComponentState :=
  { localUser := some cexUser, selectedImage := none, tempImageURL := none,
    isEditing := true, isUploading := false }

/-- A submit with empty password (leave unchanged) and no image. -/
def cexForm : ProfileFormDataModel :=
  { email := "new@example.com", userName := "newname", password := "",
    profileImage := none }

/-- A server response that differs from the submitted values. -/
def cexResp : UserData :=
  { _id := some "id1", email := "server@example.com", userName := "servername",
    password := none, imgURL := none, accessToken := none, refreshToken := none }

/-- A valid submit with an 8-character password and no image. -/
def passForm : ProfileFormDataModel :=
  { email := "a@b.com", userName := "alice", password := "newpass1",
    profileImage := none }

/-- The payload `onSubmit` builds for `passForm` with no staged image. -/
def passPayload : UpdatePayload := basePayload passForm

/-- A state whose local user copy is absent. -/
def noUserState : ComponentState :=
  { localUser := none, selectedImage := none, tempImageURL := none,
    isEditing := true, isUploading := false }

/-- Editing state over `cexUser` with a staged image. -/
def imageState : ComponentState :=
  { cexState with selectedImage := some jpegFile, tempImageURL := some "blob:1" }

/-- A sample sequence of edit-mode actions. -/
def editScript : List EditAction :=
  [EditAction.editEmail "x@y.com", EditAction.editPassword "short",
   EditAction.selectImage jpegFile "blob:2"]

/-- An empty working copy. -/
def blankForm : FormState := { email := "", userName := "", password := "" }

/-! ## Theorems -/

/-- C1: the claim says an empty password is accepted as valid (meaning
"leave unchanged") and a non-empty one is valid iff its length is at
least 8.  The schema `password: z.string().min(8)` instead rejects the
empty password: `passwordValid` (the code) and `passwordValidClaim`
(the spec's rule) disagree exactly at the empty string, where the code
reports a validation error. -/
theorem c1_password_empty_rejected :
    passwordValid "" = false ∧ passwordValidClaim "" = true ∧
    passwordValid "newpass1" = true ∧ passwordValid "short" = false := by
  decide

/-- C2 counterexample: on an item whose `owner` field is present but
empty (`""`) with legacy `userId = "u1"`, the code's falsy fallback
`item.owner || item.userId` resolves the owner to `"u1"` and keeps the
item, while the claim's absent-only fallback (`owner ?? userId`)
compares `""` with `"u1"` and drops it. -/
theorem c2_counterexample :
    classify [itemEmptyOwner] (some "u1") "lost" = [itemEmptyOwner] ∧
    claimClassify [itemEmptyOwner] "u1" "lost" = [] := by
  decide

/-- C6: after mounting, selecting one image file and letting three
effect commits run, then unmounting, the component has created three
preview handles and revoked only two: the balance claimed by the spec
fails.  (The effect stores `tempImageURL` in its own dependency array,
so every commit re-creates a fresh object URL and the cleanup always
runs one handle behind.) -/
theorem c6_handle_imbalance :
    effectTrace.createdCount = 3 ∧ effectTrace.revokedCount = 2 ∧
    effectTrace.createdCount ≠ effectTrace.revokedCount := by
  decide

/-- C7: the claim says a staged file whose MIME type is not
`image/jpeg`/`image/png` is rejected with a field-level validation
error.  The schema's `profileImage: z.optional(z.instanceof(FileList))`
contains no MIME check, so a GIF file passes validation
(`profileImageValid`), while the spec's rule
(`profileImageValidClaim`) rejects it. -/
theorem c7_gif_accepted :
    profileImageValid (some [gifFile]) = true ∧
    profileImageValidClaim (some [gifFile]) = false := by
  decide

/-- C9: the claim says a coordinate-object location is displayed as
`"Lat: <4dp>, Lng: <4dp>"`.  The helper `formatLocation` does produce
that string, but the JSX of `renderUserItems` renders the raw
`{item.location}` child instead of calling the helper, so a coordinate
object is not displayed as the formatted string (an object is not a
valid React child); plain string locations happen to agree. -/
theorem c9_location_not_formatted :
    renderedLocation (Location.coords (Rat.divInt 3 2) (Rat.divInt 9 4)) = none ∧
    formatLocation (Location.coords (Rat.divInt 3 2) (Rat.divInt 9 4))
      = "Lat: 1.5000, Lng: 2.2500" ∧
    renderedLocation (Location.coords (Rat.divInt 3 2) (Rat.divInt 9 4))
      ≠ some (formatLocation (Location.coords (Rat.divInt 3 2) (Rat.divInt 9 4))) ∧
    renderedLocation (Location.text "Central Park") = some "Central Park" := by
  decide

/-- The filter predicate of `renderUserItems` coincides pointwise with
the amended ownership predicate. -/
theorem itemMatches_eq_amended (currentUserId : Option String) (typeParam : String)
    (i : Item) :
    itemMatches currentUserId typeParam i = amendedMatches currentUserId typeParam i := by
  simp only [itemMatches, amendedMatches]
  by_cases h1 : truthyStr (jsOrStr i.owner i.userId) = true <;>
    by_cases h2 : truthyStr currentUserId = true <;>
      by_cases h3 : jsOrStr i.owner i.userId = currentUserId <;>
        simp [h1, h2, h3]

/-- C2 amended: the classification keeps exactly the items accepted by
the amended ownership predicate (falsy fallback `owner || userId`, both
the resolved owner and the current user id non-empty, string equality,
lowercased-and-trimmed type equality), and it preserves the input
order (the result is a sublist of the input). -/
theorem c2_classify_amended (items : List Item) (currentUserId : Option String)
    (typeParam : String) :
    (∀ i : Item, i ∈ classify items currentUserId typeParam ↔
      i ∈ items ∧ amendedMatches currentUserId typeParam i = true) ∧
    (classify items currentUserId typeParam).Sublist items := by
  constructor
  · intro i
    simp [classify, List.mem_filter, itemMatches_eq_amended]
  · exact List.filter_sublist items

/-- Witness for `c2_classify_amended` at a concrete item and user. -/
theorem c2_classify_amended_witness :
    (itemEmptyOwner ∈ classify [itemEmptyOwner] (some "u1") "lost" ↔
      itemEmptyOwner ∈ [itemEmptyOwner] ∧
        amendedMatches (some "u1") "lost" itemEmptyOwner = true) ∧
    (classify [itemEmptyOwner] (some "u1") "lost").Sublist [itemEmptyOwner] :=
  ⟨(c2_classify_amended [itemEmptyOwner] (some "u1") "lost").1 itemEmptyOwner,
   (c2_classify_amended [itemEmptyOwner] (some "u1") "lost").2⟩

/-- `basePayload` written as one record: `password` is present exactly
when the submitted password has length at least 8 (JS truthiness of
the string is subsumed by the length bound). -/
theorem basePayload_eq (d : ProfileFormDataModel) :
    basePayload d =
      { email := d.email, userName := d.userName,
        password := if 8 ≤ d.password.length then some d.password else none,
        imgURL := none } := by
  unfold basePayload
  by_cases h : d.password = ""
  · rw [if_neg (fun hc => hc.1 h), if_neg (by rw [h]; decide)]
  · by_cases h8 : 8 ≤ d.password.length
    · rw [if_pos ⟨h, h8⟩, if_pos h8]
    · rw [if_neg (fun hc => h8 hc.2), if_neg h8]

/-- C3: any `updateUser` call issued by `onSubmit` carries the
submitted `email` and `userName`, carries `password` exactly when the
validated password has length at least 8 (and then with the submitted
value), and carries the avatar-URL key `imgURL` exactly when an image
was staged (and hence uploaded).  With an 8-character password and no
staged image the payload is therefore exactly
`{email, userName, password}` with no `imgURL` key. -/
theorem c3_update_payload (s : ComponentState) (data : ProfileFormDataModel)
    (ur : Except Unit String) (vr : Except Unit UserData) (uid : String) (p : UpdatePayload)
    (hmem : NetCall.updateUser uid p ∈ (onSubmit s data ur vr).2) :
    p.email = data.email ∧ p.userName = data.userName ∧
    p.password = (if 8 ≤ data.password.length then some data.password else none) ∧
    (p.imgURL.isSome ↔ s.selectedImage.isSome) := by
  unfold onSubmit at hmem
  rcases hlu : s.localUser with _ | u
  · simp [hlu] at hmem
  · simp only [hlu] at hmem
    rcases hid : u._id with _ | uid2
    · simp [hid] at hmem
    · simp only [hid] at hmem
      by_cases hq : uid2 = ""
      · simp [hq] at hmem
      · simp only [if_neg hq] at hmem
        rcases hsel : s.selectedImage with _ | file <;>
          simp only [hsel] at hmem
        · rcases vr with _ | resp <;>
          · simp at hmem
            obtain ⟨-, hp⟩ := hmem
            subst hp
            rw [basePayload_eq]
            simp
        · rcases ur with _ | url
          · simp at hmem
          · rcases vr with _ | resp <;>
            · simp at hmem
              obtain ⟨-, hp⟩ := hmem
              subst hp
              simp [basePayload_eq]

/-- Witness for `c3_update_payload`: the scenario submit with password
"newpass1" (8 characters) and no staged image sends exactly the keys
`{email, userName, password}` and no `imgURL` key. -/
theorem c3_update_payload_witness :
    (passPayload.email = passForm.email ∧ passPayload.userName = passForm.userName ∧
      passPayload.password =
        (if 8 ≤ passForm.password.length then some passForm.password else none) ∧
      (passPayload.imgURL.isSome ↔ cexState.selectedImage.isSome)) ∧
    passPayload =
      { email := "a@b.com", userName := "alice", password := some "newpass1",
        imgURL := none } :=
  ⟨c3_update_payload cexState passForm (Except.error ()) (Except.ok cexResp) "id1"
      passPayload (by decide),
   by decide⟩

/-- C4: whenever a step of the submit fails — the image upload rejects
while an image is staged, or the `updateUser` call rejects — the
thrown error lands in `catch`/`finally` before `setLocalUser` runs, so
the local user copy is exactly what it was before the submit. -/
theorem c4_failure_preserves_user (s : ComponentState) (data : ProfileFormDataModel)
    (ur : Except Unit String) (vr : Except Unit UserData)
    (h : (s.selectedImage.isSome = true ∧ ur = Except.error ()) ∨ vr = Except.error ()) :
    (onSubmit s data ur vr).1.localUser = s.localUser := by
  unfold onSubmit
  rcases hlu : s.localUser with _ | u
  · simp [hlu]
  · simp only [hlu]
    rcases hid : u._id with _ | uid
    · simp [hid, hlu]
    · simp only [hid]
      by_cases hq : uid = ""
      · simp [hq, hlu]
      · simp only [if_neg hq]
        rcases hsel : s.selectedImage with _ | file <;> simp only [hsel]
        · rcases h with ⟨hs, -⟩ | hv
          · rw [hsel] at hs; simp at hs
          · subst hv; simp
        · rcases ur with _ | url
          · simp
          · rcases h with ⟨-, hu⟩ | hv
            · simp at hu
            · subst hv; simp

/-- Witness for `c4_failure_preserves_user`: a failing image upload
over a state with a staged image leaves the local user untouched. -/
theorem c4_failure_preserves_user_witness :
    (onSubmit imageState cexForm (Except.error ()) (Except.ok cexResp)).1.localUser
      = imageState.localUser :=
  c4_failure_preserves_user imageState cexForm (Except.error ()) (Except.ok cexResp)
    (Or.inl ⟨rfl, rfl⟩)

/-- C5 counterexample: on a successful submit (empty password, no
staged image) the code merges the request payload, not the server's
response: with a response whose fields differ from the submitted ones,
the resulting account carries the submitted values, not the merge of
the response demanded by the claim. -/
theorem c5_response_not_merged :
    (onSubmit cexState cexForm (Except.error ()) (Except.ok cexResp)).1.localUser
        = some { cexUser with email := "new@example.com", userName := "newname" } ∧
    (onSubmit cexState cexForm (Except.error ()) (Except.ok cexResp)).1.localUser
        ≠ some (mergeSpecResponse cexUser (basePayload cexForm) cexResp) := by
  decide

/-- The merge of a payload built by `onSubmit` (the base payload with
an optional uploaded avatar URL) into the prior account, field by
field. -/
theorem mergeLocal_props (u : UserData) (data : ProfileFormDataModel) (img : Option String) :
    (mergeLocal u { basePayload data with imgURL := img }).email = data.email ∧
    (mergeLocal u { basePayload data with imgURL := img }).userName = data.userName ∧
    (mergeLocal u { basePayload data with imgURL := img })._id = u._id ∧
    (mergeLocal u { basePayload data with imgURL := img }).accessToken = u.accessToken ∧
    (mergeLocal u { basePayload data with imgURL := img }).refreshToken = u.refreshToken ∧
    (8 ≤ data.password.length →
      (mergeLocal u { basePayload data with imgURL := img }).password = some data.password) ∧
    (¬ 8 ≤ data.password.length →
      (mergeLocal u { basePayload data with imgURL := img }).password = u.password) ∧
    (mergeLocal u { basePayload data with imgURL := img }).imgURL =
      (match img with
       | some url => if url = "" then u.imgURL else some url
       | none => u.imgURL) := by
  rw [basePayload_eq]
  cases img <;> by_cases h8 : 8 ≤ data.password.length <;> simp [mergeLocal, h8]

/-- C5 amended: on every successful submit the submitted partial
update (the server's response is received but not consulted) is merged
into the account: `email` and `userName` take the submitted values;
`password` is updated exactly when the validated password has length
at least 8 and is kept otherwise; the avatar URL is replaced by the
uploaded URL when an image was staged and the uploaded URL is
non-empty (the `||` fallback keeps the prior avatar for an empty
uploaded URL), and keeps its prior value when no image was staged;
every field never present in the payload (`_id`, the tokens) keeps its
prior value. -/
theorem c5_payload_merge (s : ComponentState) (u resp : UserData) (uid : String)
    (data : ProfileFormDataModel) (ur : Except Unit String)
    (h1 : s.localUser = some u) (h2 : u._id = some uid) (h3 : uid ≠ "")
    (hok : s.selectedImage = none ∨ ∃ url, ur = Except.ok url) :
    ∃ w : UserData,
      (onSubmit s data ur (Except.ok resp)).1.localUser = some w ∧
      w.email = data.email ∧
      w.userName = data.userName ∧
      w._id = u._id ∧
      w.accessToken = u.accessToken ∧
      w.refreshToken = u.refreshToken ∧
      (8 ≤ data.password.length → w.password = some data.password) ∧
      (¬ 8 ≤ data.password.length → w.password = u.password) ∧
      (s.selectedImage = none → w.imgURL = u.imgURL) ∧
      (∀ file url, s.selectedImage = some file → ur = Except.ok url →
        w.imgURL = (if url = "" then u.imgURL else some url)) := by
  unfold onSubmit
  simp only [h1]
  simp only [h2]
  simp only [if_neg h3]
  rcases hsel : s.selectedImage with _ | file
  · have hbp : ({ basePayload data with imgURL := none } : UpdatePayload)
        = basePayload data := by
      rw [basePayload_eq]
    obtain ⟨he, hun, hid2, hacc, href, hpw1, hpw2, himg⟩ := mergeLocal_props u data none
    rw [hbp] at he hun hid2 hacc href hpw1 hpw2 himg
    refine ⟨mergeLocal u (basePayload data), rfl, he, hun, hid2.trans h2, hacc, href,
      hpw1, hpw2, fun _ => himg, ?_⟩
    intro file url hsf hur
    simp at hsf
  · rcases hok with hnone | ⟨url, hurl⟩
    · rw [hsel] at hnone
      cases hnone
    · subst hurl
      obtain ⟨he, hun, hid2, hacc, href, hpw1, hpw2, himg⟩ := mergeLocal_props u data (some url)
      refine ⟨mergeLocal u { basePayload data with imgURL := some url }, rfl,
        he, hun, hid2.trans h2, hacc, href, hpw1, hpw2, ?_, ?_⟩
      · intro hc
        simp at hc
      · intro file2 url2 hsf hur
        injection hur with hu2
        subst hu2
        exact himg

/-- Witness for `c5_payload_merge`: a successful submit with a staged
image, a successful upload and an 8-character password over
`imageState`. -/
theorem c5_payload_merge_witness :
    (∃ w : UserData,
      (onSubmit imageState passForm (Except.ok "https://cdn/new.png")
          (Except.ok cexResp)).1.localUser = some w ∧
      w.email = passForm.email ∧
      w.userName = passForm.userName ∧
      w._id = cexUser._id ∧
      w.accessToken = cexUser.accessToken ∧
      w.refreshToken = cexUser.refreshToken ∧
      (8 ≤ passForm.password.length → w.password = some passForm.password) ∧
      (¬ 8 ≤ passForm.password.length → w.password = cexUser.password) ∧
      (imageState.selectedImage = none → w.imgURL = cexUser.imgURL) ∧
      (∀ file url, imageState.selectedImage = some file →
        (Except.ok "https://cdn/new.png" : Except Unit String) = Except.ok url →
        w.imgURL = (if url = "" then cexUser.imgURL else some url))) ∧
    (onSubmit cexState cexForm (Except.ok "ignored-url") (Except.ok cexResp)).1.localUser
      = some { cexUser with email := cexForm.email, userName := cexForm.userName } :=
  ⟨c5_payload_merge imageState cexUser cexResp "id1" passForm
      (Except.ok "https://cdn/new.png") rfl rfl (by decide)
      (Or.inr ⟨"https://cdn/new.png", rfl⟩),
   by decide⟩

/-- Folding any sequence of edit-mode actions never writes the local
user copy. -/
theorem applyEdits_localUser (acts : List EditAction) (p : ComponentState × FormState) :
    (acts.foldl applyEdit p).1.localUser = p.1.localUser := by
  induction acts generalizing p with
  | nil => rfl
  | cons a acts ih =>
    rw [List.foldl_cons, ih]
    cases a <;> rfl

/-- C8: entering edit mode, performing any sequence of field edits and
image selections, then cancelling leaves the local user copy exactly as
it was before edit mode was entered, clears the staged image and its
preview reference, leaves edit mode, and resets the working copy from
the account (password cleared). -/
theorem c8_cancel_noop (s : ComponentState) (u : UserData) (f : FormState)
    (acts : List EditAction) (h : s.localUser = some u) :
    (cancelAfterEdits s f acts).1.localUser = some u ∧
    (cancelAfterEdits s f acts).1.selectedImage = none ∧
    (cancelAfterEdits s f acts).1.tempImageURL = none ∧
    (cancelAfterEdits s f acts).1.isEditing = false ∧
    (cancelAfterEdits s f acts).2 =
      { email := u.email, userName := jsOrString u.userName "", password := "" } := by
  have hl : (acts.foldl applyEdit (enterEdit s, f)).1.localUser = some u := by
    rw [applyEdits_localUser]; exact h
  unfold cancelAfterEdits handleCancelEdit
  simp [hl]

/-- Witness for `c8_cancel_noop`: a concrete session of three edits
(including an image selection) over `cexState`. -/
theorem c8_cancel_noop_witness :
    (cancelAfterEdits cexState blankForm editScript).1.localUser = some cexUser ∧
    (cancelAfterEdits cexState blankForm editScript).1.selectedImage = none ∧
    (cancelAfterEdits cexState blankForm editScript).1.tempImageURL = none ∧
    (cancelAfterEdits cexState blankForm editScript).1.isEditing = false ∧
    (cancelAfterEdits cexState blankForm editScript).2 =
      { email := cexUser.email, userName := jsOrString cexUser.userName "",
        password := "" } :=
  c8_cancel_noop cexState cexUser blankForm editScript rfl

/-- C10: when the local user copy is absent or has no id, `onSubmit`
returns before `setIsUploading(true)`: no service call is issued and
the state — including the in-flight flag — is unchanged. -/
theorem c10_guard_noop (s : ComponentState) (data : ProfileFormDataModel)
    (ur : Except Unit String) (vr : Except Unit UserData)
    (h : s.localUser = none ∨ ∃ u, s.localUser = some u ∧ u._id = none) :
    onSubmit s data ur vr = (s, []) := by
  unfold onSubmit
  rcases h with h | ⟨u, hu, hid⟩
  · rw [h]
  · rw [hu]
    simp [hid]

/-- Witness for `c10_guard_noop`: a state with no local user. -/
theorem c10_guard_noop_witness :
    onSubmit noUserState passForm (Except.error ()) (Except.error ())
      = (noUserState, []) :=
  c10_guard_noop noUserState passForm (Except.error ()) (Except.error ()) (Or.inl rfl)
